import Mathlib

/-!
Verification development for the vde3 core interfaces: the packet
buffer (src/src/include/vde3/packet.h) and the context/component,
event-handler and connection-manager interfaces (the vde3.h header).
The repository snapshot contains the interface headers; the behavior of
functions whose implementation files are absent is modelled from the
specification, as noted in the doc comment of each such definition.
-/

/-- `struct vde_hdr` (packet.h): 1-byte version, 1-byte payload type,
16-bit payload length. -/
structure vde_hdr where
  version : Nat
  type : Nat
  pkt_len : Nat
deriving DecidableEq

/-- Size in bytes of `struct vde_hdr`: two `uint8_t` fields and one
`uint16_t` field. -/
def vde_hdr_size : Nat := 1 + 1 + 2

/-- Model of `struct vde_pkt` (packet.h). The C struct carries four
pointers (`head`, `hdr`, `payload`, `tail`) into the allocation `data`
of `data_size` bytes, laid out as head margin, header, payload, tail
margin. Here that layout is represented by the sizes of the regions,
and the four pointers are recovered as derived offsets from the start
of `data` (the spec design notes map the pointers to derived offsets).
`data` is the byte content of the allocation, `dataSize` its capacity. -/
structure vde_pkt where
  headSz : Nat
  payloadLen : Nat
  tailSz : Nat
  dataSize : Nat
  data : List Nat
deriving DecidableEq

/-- The `head` pointer as an offset: start of the head margin. -/
def vde_pkt.headOff (_ : vde_pkt) : Nat := 0

/-- The `hdr` pointer as an offset: the header follows the head margin. -/
def vde_pkt.hdrOff (p : vde_pkt) : Nat := p.headSz

/-- The `payload` pointer as an offset: the payload follows the header. -/
def vde_pkt.payloadOff (p : vde_pkt) : Nat := p.headSz + vde_hdr_size

/-- The `tail` pointer as an offset: start of the tail margin, right
after the payload. -/
def vde_pkt.tailOff (p : vde_pkt) : Nat := p.headSz + vde_hdr_size + p.payloadLen

/-- The populated span of a packet: head margin, header, payload and
tail margin together. -/
def vde_pkt.span (p : vde_pkt) : Nat :=
  p.headSz + vde_hdr_size + p.payloadLen + p.tailSz

/-- The `len` bytes of `l` starting at offset `off`. -/
def listSub (l : List Nat) (off len : Nat) : List Nat := (l.drop off).take len

/-- Modelled from the spec: `vde_pkt_init` is only declared in packet.h
and its implementation file is absent from the snapshot. Following the
spec, it establishes the four region pointers inside an allocation of
`dataSz` bytes so that `headSz` bytes precede the header+payload region
and `tailSz` bytes follow it; the payload region takes the remaining
space and the byte content is untouched. -/
def vde_pkt_init (pkt : vde_pkt) (dataSz headSz tailSz : Nat) : vde_pkt :=
  { pkt with
    headSz := headSz
    payloadLen := dataSz - headSz - vde_hdr_size - tailSz
    tailSz := tailSz
    dataSize := dataSz }

/-- Modelled from the spec: `vde_pkt_cpy` is only declared in packet.h
and its implementation file is absent from the snapshot. Following the
spec, it copies head margin, header, payload and tail margin content
from `src` into `dst` byte for byte and establishes the same four
region boundaries relative to the start of the destination allocation,
keeping the destination capacity. -/
def vde_pkt_cpy (dst src : vde_pkt) : vde_pkt :=
  { headSz := src.headSz
    payloadLen := src.payloadLen
    tailSz := src.tailSz
    dataSize := dst.dataSize
    data := src.data.take src.span ++ dst.data.drop src.span }

/-- Modelled from the spec: `vde_pkt_compact_cpy` is only declared in
packet.h and its implementation file is absent from the snapshot.
Following the spec, it copies only header and payload into `dst`, with
zero head and tail margins and the payload immediately after the
header. -/
def vde_pkt_compact_cpy (dst src : vde_pkt) : vde_pkt :=
  { headSz := 0
    payloadLen := src.payloadLen
    tailSz := 0
    dataSize := dst.dataSize
    data := listSub src.data src.hdrOff vde_hdr_size ++
      listSub src.data src.payloadOff src.payloadLen ++
      dst.data.drop (vde_hdr_size + src.payloadLen) }

/-- The layout established by `vde_pkt_init`: the pointer chain is
ordered within the allocation, with a head margin of `headSz` bytes
before the header and `tailSz` bytes after the header+payload region. -/
def init_layout_ok (r : vde_pkt) (headSz tailSz : Nat) : Prop :=
  r.headOff ≤ r.hdrOff ∧ r.hdrOff ≤ r.payloadOff ∧ r.payloadOff ≤ r.tailOff ∧
  r.tailOff ≤ r.dataSize ∧ r.hdrOff - r.headOff = headSz ∧
  r.dataSize - r.tailOff = tailSz

/-- Outcome of `vde_pkt_cpy`: the populated span of `src` is copied
byte for byte, the four region boundaries match the source's relative
to the destination allocation, the destination capacity and allocation
length are its own, and the populated span fits (no truncation). -/
def cpy_ok (r dst src : vde_pkt) : Prop :=
  r.data.take src.span = src.data.take src.span ∧
  r.headSz = src.headSz ∧ r.payloadLen = src.payloadLen ∧ r.tailSz = src.tailSz ∧
  r.dataSize = dst.dataSize ∧ r.data.length = dst.data.length ∧
  r.span ≤ r.dataSize ∧
  listSub r.data r.headOff r.headSz = listSub src.data src.headOff src.headSz ∧
  listSub r.data r.hdrOff vde_hdr_size = listSub src.data src.hdrOff vde_hdr_size ∧
  listSub r.data r.payloadOff r.payloadLen =
    listSub src.data src.payloadOff src.payloadLen ∧
  listSub r.data r.tailOff r.tailSz = listSub src.data src.tailOff src.tailSz

/-- Outcome of `vde_pkt_compact_cpy`: payload and header bytes are
identical to the source's, both margins are zero, and the payload is
immediately adjacent to the header. -/
def compact_cpy_ok (r src : vde_pkt) : Prop :=
  listSub r.data r.payloadOff r.payloadLen =
    listSub src.data src.payloadOff src.payloadLen ∧
  listSub r.data r.hdrOff vde_hdr_size = listSub src.data src.hdrOff vde_hdr_size ∧
  r.headSz = 0 ∧ r.tailSz = 0 ∧ r.payloadLen = src.payloadLen ∧
  r.payloadOff = r.hdrOff + vde_hdr_size ∧
  r.span ≤ r.dataSize

/-- `enum vde_component_kind` (vde3.h). -/
inductive vde_component_kind where
  | VDE_ENGINE
  | VDE_TRANSPORT
  | VDE_CONNECTION_MANAGER
deriving DecidableEq

/-- The error signals of the context operations, from the spec's error
taxonomy. -/
inductive vde_error where
  | alloc_error
  | not_found
  | name_collision
  | in_use
  | malformed_handler
deriving DecidableEq

/-- A component name: either supplied by the caller or auto-generated. -/
inductive comp_name where
  | given (s : String)
  | auto (k : Nat)
deriving DecidableEq

/-- Model of `struct vde_component` per the spec data model: kind,
family, unique name, and the back-references this component holds to
other components. -/
structure vde_component where
  kind : vde_component_kind
  family : String
  name : comp_name
  refs : List comp_name
deriving DecidableEq

/-- Lifecycle phase of a context. -/
inductive ctx_phase where
  | allocated
  | running
  | finalized
deriving DecidableEq

/-- Model of `struct vde_context` per the spec data model: lifecycle
phase, component registry, the registered implementations keyed by kind
and family, and the live event registrations (as opaque tokens). -/
structure vde_context where
  phase : ctx_phase
  registry : List vde_component
  impls : List (vde_component_kind × String)
  eventRegs : List Nat
deriving DecidableEq

/-- The names present in a context's registry. -/
def registryNames (ctx : vde_context) : List comp_name :=
  ctx.registry.map (fun c => c.name)

/-- One above the largest auto-generated index among `names`. -/
def nextAutoIdx (names : List comp_name) : Nat :=
  names.foldr (fun n acc => match n with | .auto k => max (k + 1) acc | _ => acc) 0

/-- A fresh auto-generated name. -/
def freshAuto (names : List comp_name) : comp_name := .auto (nextAutoIdx names)

/-- Name resolution for component creation: the caller-supplied name,
or a fresh auto-generated one. -/
def resolveName (ctx : vde_context) : Option String → comp_name
  | some s => .given s
  | none => freshAuto (registryNames ctx)

/-- Registry insertion step of component creation: fails with the
name-collision signal when the name is taken, otherwise inserts the new
component. -/
def newComponentWithName (ctx : vde_context) (kind : vde_component_kind)
    (family : String) (nm : comp_name) :
    Except vde_error (vde_context × vde_component) :=
  if nm ∈ registryNames ctx then
    .error .name_collision
  else
    .ok ({ ctx with registry := ⟨kind, family, nm, []⟩ :: ctx.registry },
         ⟨kind, family, nm, []⟩)

/-- Modelled from the spec: `vde_context_new_component` is only
declared in vde3.h and its implementation file is absent from the
snapshot. Following the spec, it resolves `(kind, family)` among the
registered implementations (not-found signal on failure), assigns the
supplied name or auto-generates a fresh unique one, fails with a
name-collision signal when the name is already taken, and otherwise
inserts the new component into the registry and returns it. -/
def vde_context_new_component (ctx : vde_context) (kind : vde_component_kind)
    (family : String) (name : Option String) :
    Except vde_error (vde_context × vde_component) :=
  if (kind, family) ∈ ctx.impls then
    newComponentWithName ctx kind family (resolveName ctx name)
  else
    .error .not_found

/-- Whether some other live component of the registry holds a
back-reference to `c`. -/
def componentInUse (ctx : vde_context) (c : vde_component) : Bool :=
  ctx.registry.any (fun d => decide (d.name ≠ c.name) && decide (c.name ∈ d.refs))

/-- Modelled from the spec: `vde_context_component_del` is only
declared in vde3.h and its implementation file is absent from the
snapshot. Following the spec, it checks the references held by other
components and fails with the in-use signal leaving the context
untouched; otherwise it removes the component from the registry. The
result pairs the resulting context with the error signal, if any. -/
def vde_context_component_del (ctx : vde_context) (c : vde_component) :
    vde_context × Option vde_error :=
  if componentInUse ctx c then
    (ctx, some .in_use)
  else
    ({ ctx with registry := ctx.registry.filter (fun d => decide (d.name ≠ c.name)) },
     none)

/-- Modelled from the spec: `vde_context_fini` is only declared in
vde3.h and its implementation file is absent from the snapshot.
Following the spec, fini quiesces: it stops firing new events (drops
the live event registrations) and marks the context finalized, but does
not free component storage, which is kept for teardown ordering. -/
def vde_context_fini (ctx : vde_context) : vde_context :=
  { ctx with phase := .finalized, eventRegs := [] }

/-- States of one connect request (spec state machine: Requested,
Succeeded, Failed). -/
inductive conn_state where
  | requested
  | succeeded
  | failed
deriving DecidableEq

/-- The two completion callbacks of the connection-manager connect
protocol (`vde_connect_success_cb` and `vde_connect_error_cb` in
vde3.h). -/
inductive conn_cb where
  | success_cb
  | error_cb
deriving DecidableEq

/-- Whether a connect-request state is terminal. -/
def conn_state.terminal : conn_state → Bool
  | .requested => false
  | .succeeded => true
  | .failed => true

/-- Modelled from the spec: the completion steps of the async-connect
state machine; vde3.h declares only the callback types and the
implementation is absent from the snapshot. A pending request completes
by invoking exactly one callback, moving to the matching terminal
state; terminal states have no outgoing steps. -/
inductive conn_step : conn_state → conn_cb → conn_state → Prop where
  | complete_ok : conn_step .requested .success_cb .succeeded
  | complete_err : conn_step .requested .error_cb .failed

/-- A run of the connect protocol: the callbacks invoked, in order,
while moving from one state to another. -/
inductive conn_run : conn_state → List conn_cb → conn_state → Prop where
  | refl (s : conn_state) : conn_run s [] s
  | step {s sm t : conn_state} {e : conn_cb} {evs : List conn_cb} :
      conn_step s e sm → conn_run sm evs t → conn_run s (e :: evs) t

/-- Modelled from the spec: the synchronous effect of issuing a connect
request through a connection manager. The request is registered in the
`requested` state and no callback is invoked within the call itself. -/
def connect_request : conn_state × List conn_cb := (.requested, [])

/-- `#define VDE_EV_READ 0x02` (vde3.h). -/
def VDE_EV_READ : Nat := 0x02

/-- `#define VDE_EV_WRITE 0x04` (vde3.h). -/
def VDE_EV_WRITE : Nat := 0x04

/-- `#define VDE_EV_PERSIST 0x10` (vde3.h). -/
def VDE_EV_PERSIST : Nat := 0x10

/-- C return types occurring in the context API of vde3.h. -/
inductive c_return_type where
  | void
  | int
  | component_ptr
deriving DecidableEq

/-- The context operations declared in vde3.h with their C return
types, in declaration order. -/
def contextOperations : List (String × c_return_type) :=
  [("vde_context_new", .int),
   ("vde_context_init", .int),
   ("vde_context_fini", .void),
   ("vde_context_delete", .void),
   ("vde_context_new_component", .int),
   ("vde_context_get_component", .component_ptr),
   ("vde_context_component_del", .int),
   ("vde_context_config_save", .int),
   ("vde_context_config_load", .int)]

/-- C types occurring in the connect callback signatures of vde3.h. -/
inductive c_type where
  | void_t
  | int_t
  | component_ptr_t
  | void_ptr_t
deriving DecidableEq

/-- A C function signature: parameter types and return type. -/
structure c_fun_sig where
  params : List c_type
  ret : c_type
deriving DecidableEq

/-- `typedef void (*vde_connect_success_cb)(vde_component *cm, void *arg)`
(vde3.h). -/
def vde_connect_success_cb_sig : c_fun_sig :=
  ⟨[.component_ptr_t, .void_ptr_t], .void_t⟩

/-- `typedef void (*vde_connect_error_cb)(vde_component *cm, void *arg)`
(vde3.h). -/
def vde_connect_error_cb_sig : c_fun_sig :=
  ⟨[.component_ptr_t, .void_ptr_t], .void_t⟩

lemma take_drop_eq_of_take_eq (l l2 : List Nat) (n off len : Nat)
    (h : l.take n = l2.take n) (hle : off + len ≤ n) :
    (l.drop off).take len = (l2.drop off).take len := by
  have key : ∀ m : List Nat, (m.drop off).take len = ((m.take n).drop off).take len := by
    intro m
    rw [List.drop_take, List.take_take]
    congr 1
    omega
  rw [key l, key l2, h]

/-- C1: for every `data_size`, `head_size`, `tail_size` with
`head_size + header_size + tail_size ≤ data_size`, after
`vde_pkt_init` the four region pointers are ordered
`head ≤ header ≤ payload ≤ tail ≤ data + data_size`, with a head
margin of `head_size` bytes preceding the header+payload region and
`tail_size` bytes following it. -/
theorem C1_pkt_init_layout (pkt : vde_pkt) (dataSz headSz tailSz : Nat)
    (h : headSz + vde_hdr_size + tailSz ≤ dataSz) :
    init_layout_ok (vde_pkt_init pkt dataSz headSz tailSz) headSz tailSz := by
  unfold init_layout_ok
  dsimp only [vde_pkt_init, vde_pkt.headOff, vde_pkt.hdrOff, vde_pkt.payloadOff,
    vde_pkt.tailOff]
  refine ⟨?_, ?_, ?_, ?_, ?_, ?_⟩ <;> omega

theorem C1_pkt_init_layout_witness :
    init_layout_ok (vde_pkt_init ⟨0, 0, 0, 0, []⟩ 20 3 2) 3 2 :=
  C1_pkt_init_layout ⟨0, 0, 0, 0, []⟩ 20 3 2 (by decide)

/-- C4: for every source packet and destination packet whose capacity
is at least the source's populated span including margins,
`vde_pkt_cpy` transfers head margin, header, payload and tail margin
content byte for byte, preserves the four region boundaries relative to
the destination's own allocation, and does not truncate. -/
theorem C4_pkt_cpy (dst src : vde_pkt)
    (hsrc : src.span ≤ src.data.length)
    (hdl : dst.data.length = dst.dataSize)
    (hcap : src.span ≤ dst.dataSize) :
    cpy_ok (vde_pkt_cpy dst src) dst src := by
  unfold vde_pkt.span at hsrc hcap
  have hA : (src.data.take (src.headSz + vde_hdr_size + src.payloadLen + src.tailSz)).length
      = src.headSz + vde_hdr_size + src.payloadLen + src.tailSz := by
    rw [List.length_take]
    omega
  have h1 : ((src.data.take (src.headSz + vde_hdr_size + src.payloadLen + src.tailSz) ++
      dst.data.drop (src.headSz + vde_hdr_size + src.payloadLen + src.tailSz)).take
        (src.headSz + vde_hdr_size + src.payloadLen + src.tailSz))
      = src.data.take (src.headSz + vde_hdr_size + src.payloadLen + src.tailSz) :=
    List.take_left' hA
  unfold cpy_ok
  dsimp only [vde_pkt_cpy, vde_pkt.headOff, vde_pkt.hdrOff, vde_pkt.payloadOff,
    vde_pkt.tailOff, vde_pkt.span, listSub]
  refine ⟨h1, rfl, rfl, rfl, rfl, ?_, ?_, ?_, ?_, ?_, ?_⟩
  · rw [List.length_append, List.length_take, List.length_drop]
    omega
  · exact hcap
  · exact take_drop_eq_of_take_eq _ _ _ 0 src.headSz h1 (by omega)
  · exact take_drop_eq_of_take_eq _ _ _ src.headSz vde_hdr_size h1 (by omega)
  · exact take_drop_eq_of_take_eq _ _ _ (src.headSz + vde_hdr_size) src.payloadLen h1
      (by omega)
  · exact take_drop_eq_of_take_eq _ _ _ (src.headSz + vde_hdr_size + src.payloadLen)
      src.tailSz h1 (by omega)

theorem C4_pkt_cpy_witness :
    cpy_ok (vde_pkt_cpy ⟨0, 0, 0, 10, [0, 0, 0, 0, 0, 0, 0, 0, 0, 0]⟩
             ⟨1, 2, 1, 8, [9, 1, 2, 3, 0, 5, 6, 7]⟩)
      ⟨0, 0, 0, 10, [0, 0, 0, 0, 0, 0, 0, 0, 0, 0]⟩
      ⟨1, 2, 1, 8, [9, 1, 2, 3, 0, 5, 6, 7]⟩ :=
  C4_pkt_cpy ⟨0, 0, 0, 10, [0, 0, 0, 0, 0, 0, 0, 0, 0, 0]⟩
    ⟨1, 2, 1, 8, [9, 1, 2, 3, 0, 5, 6, 7]⟩ (by decide) (by decide) (by decide)

/-- C3: for every source packet and destination packet of sufficient
capacity, after `vde_pkt_compact_cpy` the destination's payload bytes
are byte-identical to the source's payload (and its header bytes to the
source's header), the destination's head and tail margins are zero
regardless of the source's margins, and the payload lies immediately
adjacent to the header. -/
theorem C3_pkt_compact_cpy (dst src : vde_pkt)
    (hsrc : src.span ≤ src.data.length)
    (hcap : vde_hdr_size + src.payloadLen ≤ dst.dataSize) :
    compact_cpy_ok (vde_pkt_compact_cpy dst src) src := by
  unfold vde_pkt.span at hsrc
  have hH : ((src.data.drop src.headSz).take vde_hdr_size).length = vde_hdr_size := by
    rw [List.length_take, List.length_drop]
    omega
  have hP : ((src.data.drop (src.headSz + vde_hdr_size)).take src.payloadLen).length
      = src.payloadLen := by
    rw [List.length_take, List.length_drop]
    omega
  unfold compact_cpy_ok
  dsimp only [vde_pkt_compact_cpy, vde_pkt.headOff, vde_pkt.hdrOff, vde_pkt.payloadOff,
    vde_pkt.tailOff, vde_pkt.span, listSub]
  refine ⟨?_, ?_, rfl, rfl, rfl, rfl, ?_⟩
  · rw [Nat.zero_add, List.append_assoc, List.drop_left' hH, List.take_left' hP]
  · rw [List.drop_zero, List.append_assoc, List.take_left' hH]
  · omega

theorem C3_pkt_compact_cpy_witness :
    compact_cpy_ok (vde_pkt_compact_cpy ⟨0, 0, 0, 10, [0, 0, 0, 0, 0, 0, 0, 0, 0, 0]⟩
             ⟨1, 2, 1, 8, [9, 1, 2, 3, 0, 5, 6, 7]⟩)
      ⟨1, 2, 1, 8, [9, 1, 2, 3, 0, 5, 6, 7]⟩ :=
  C3_pkt_compact_cpy ⟨0, 0, 0, 10, [0, 0, 0, 0, 0, 0, 0, 0, 0, 0]⟩
    ⟨1, 2, 1, 8, [9, 1, 2, 3, 0, 5, 6, 7]⟩ (by decide) (by decide)

/-- C2: deleting a component that another live component of the same
registry still references fails with the in-use signal and leaves the
context, hence the registry, unchanged. -/
theorem C2_component_del_in_use (ctx : vde_context) (c : vde_component)
    (h : ∃ d ∈ ctx.registry, d.name ≠ c.name ∧ c.name ∈ d.refs) :
    vde_context_component_del ctx c = (ctx, some vde_error.in_use) := by
  have hb : componentInUse ctx c = true := by
    rcases h with ⟨d, hd, hne, hmem⟩
    unfold componentInUse
    rw [List.any_eq_true]
    exact ⟨d, hd, by simp [hne, hmem]⟩
  unfold vde_context_component_del
  rw [if_pos hb]

theorem C2_component_del_in_use_witness :
    vde_context_component_del
      ⟨.running,
       [⟨.VDE_ENGINE, "null", .given "A", []⟩,
        ⟨.VDE_TRANSPORT, "null", .given "B", [.given "A"]⟩],
       [(.VDE_ENGINE, "null"), (.VDE_TRANSPORT, "null")], []⟩
      ⟨.VDE_ENGINE, "null", .given "A", []⟩ =
      (⟨.running,
        [⟨.VDE_ENGINE, "null", .given "A", []⟩,
         ⟨.VDE_TRANSPORT, "null", .given "B", [.given "A"]⟩],
        [(.VDE_ENGINE, "null"), (.VDE_TRANSPORT, "null")], []⟩,
       some vde_error.in_use) :=
  C2_component_del_in_use
    ⟨.running,
     [⟨.VDE_ENGINE, "null", .given "A", []⟩,
      ⟨.VDE_TRANSPORT, "null", .given "B", [.given "A"]⟩],
     [(.VDE_ENGINE, "null"), (.VDE_TRANSPORT, "null")], []⟩
    ⟨.VDE_ENGINE, "null", .given "A", []⟩
    ⟨⟨.VDE_TRANSPORT, "null", .given "B", [.given "A"]⟩, by decide, by decide, by decide⟩

/-- C7: finalizing a context twice in succession produces the same
context state as finalizing it once. -/
theorem C7_fini_idempotent (ctx : vde_context) :
    vde_context_fini (vde_context_fini ctx) = vde_context_fini ctx := rfl

lemma new_component_ok_elim {ctx : vde_context} {kind : vde_component_kind}
    {family : String} {name : Option String} {ctx1 : vde_context}
    {c1 : vde_component}
    (h : vde_context_new_component ctx kind family name = .ok (ctx1, c1)) :
    (kind, family) ∈ ctx.impls ∧
    c1 = ⟨kind, family, resolveName ctx name, []⟩ ∧
    ctx1 = { ctx with registry := c1 :: ctx.registry } ∧
    c1.name ∉ registryNames ctx := by
  unfold vde_context_new_component newComponentWithName at h
  split at h
  · rename_i himpl
    split at h
    · simp at h
    · rename_i hmem
      injection h with hpair
      injection hpair with hctx hc
      subst hc
      subst hctx
      exact ⟨himpl, rfl, rfl, hmem⟩
  · simp at h

/-- C5: in any context, creating a second component with the same
explicit name fails with the name-collision signal; creating two
components without a name yields two distinct auto-generated names; and
a kind/family pair with no registered implementation fails with the
not-found signal. -/
theorem C5_new_component (ctx : vde_context) :
    (∀ (kind : vde_component_kind) (family : String) (n : String)
       (ctx1 : vde_context) (c1 : vde_component),
       vde_context_new_component ctx kind family (some n) = .ok (ctx1, c1) →
       vde_context_new_component ctx1 kind family (some n) =
         .error .name_collision) ∧
    (∀ (kind : vde_component_kind) (family : String)
       (ctx1 ctx2 : vde_context) (c1 c2 : vde_component),
       vde_context_new_component ctx kind family none = .ok (ctx1, c1) →
       vde_context_new_component ctx1 kind family none = .ok (ctx2, c2) →
       c1.name ≠ c2.name) ∧
    (∀ (kind : vde_component_kind) (family : String) (name : Option String),
       (kind, family) ∉ ctx.impls →
       vde_context_new_component ctx kind family name = .error .not_found) := by
  refine ⟨?_, ?_, ?_⟩
  · intro kind family n ctx1 c1 h1
    obtain ⟨himpl, hc1, hctx1, _⟩ := new_component_ok_elim h1
    unfold vde_context_new_component
    have himpl2 : (kind, family) ∈ ctx1.impls := by
      rw [hctx1]
      exact himpl
    rw [if_pos himpl2]
    unfold newComponentWithName
    have hmem : resolveName ctx1 (some n) ∈ registryNames ctx1 := by
      subst hc1
      subst hctx1
      simp [resolveName, registryNames]
    rw [if_pos hmem]
  · intro kind family ctx1 ctx2 c1 c2 h1 h2
    obtain ⟨_, _, hctx1, _⟩ := new_component_ok_elim h1
    obtain ⟨_, _, _, hfresh2⟩ := new_component_ok_elim h2
    intro heq
    apply hfresh2
    rw [← heq, hctx1]
    simp [registryNames]
  · intro kind family name h
    unfold vde_context_new_component
    rw [if_neg h]

theorem C5_new_component_witness :
    vde_context_new_component
      ⟨.running, [⟨.VDE_ENGINE, "null", .given "A", []⟩],
       [(.VDE_ENGINE, "null")], []⟩
      .VDE_ENGINE "null" (some "A") = .error .name_collision ∧
    (⟨.VDE_ENGINE, "null", .auto 0, []⟩ : vde_component).name ≠
      (⟨.VDE_ENGINE, "null", .auto 1, []⟩ : vde_component).name ∧
    vde_context_new_component ⟨.running, [], [], []⟩
      .VDE_ENGINE "null" (some "A") = .error .not_found :=
  ⟨(C5_new_component ⟨.running, [], [(.VDE_ENGINE, "null")], []⟩).1
      .VDE_ENGINE "null" "A"
      ⟨.running, [⟨.VDE_ENGINE, "null", .given "A", []⟩],
       [(.VDE_ENGINE, "null")], []⟩
      ⟨.VDE_ENGINE, "null", .given "A", []⟩ (by rfl),
   (C5_new_component ⟨.running, [], [(.VDE_ENGINE, "null")], []⟩).2.1
      .VDE_ENGINE "null"
      ⟨.running, [⟨.VDE_ENGINE, "null", .auto 0, []⟩],
       [(.VDE_ENGINE, "null")], []⟩
      ⟨.running, [⟨.VDE_ENGINE, "null", .auto 1, []⟩,
                  ⟨.VDE_ENGINE, "null", .auto 0, []⟩],
       [(.VDE_ENGINE, "null")], []⟩
      ⟨.VDE_ENGINE, "null", .auto 0, []⟩
      ⟨.VDE_ENGINE, "null", .auto 1, []⟩ (by rfl) (by rfl),
   (C5_new_component ⟨.running, [], [], []⟩).2.2
      .VDE_ENGINE "null" (some "A") (by decide)⟩

lemma conn_run_from_succeeded {evs : List conn_cb} {t : conn_state}
    (h : conn_run .succeeded evs t) : evs = [] ∧ t = .succeeded := by
  cases h with
  | refl => exact ⟨rfl, rfl⟩
  | step hstep _ => cases hstep

lemma conn_run_from_failed {evs : List conn_cb} {t : conn_state}
    (h : conn_run .failed evs t) : evs = [] ∧ t = .failed := by
  cases h with
  | refl => exact ⟨rfl, rfl⟩
  | step hstep _ => cases hstep

/-- C6: issuing a connect request invokes no callback synchronously,
and every complete run of a request (one that reaches a terminal state,
which is what a correctly firing event handler guarantees) invokes
exactly one of the success and error callbacks, exactly once, and never
both. -/
theorem C6_async_connect :
    connect_request = (conn_state.requested, ([] : List conn_cb)) ∧
    (∀ (evs : List conn_cb) (t : conn_state),
       conn_run .requested evs t → t.terminal = true →
       (evs = [.success_cb] ∧ t = .succeeded) ∨
       (evs = [.error_cb] ∧ t = .failed)) := by
  refine ⟨rfl, ?_⟩
  intro evs t hrun hterm
  cases hrun with
  | refl => simp [conn_state.terminal] at hterm
  | step hstep hrest =>
    cases hstep with
    | complete_ok =>
      obtain ⟨he, ht⟩ := conn_run_from_succeeded hrest
      subst he
      subst ht
      exact Or.inl ⟨rfl, rfl⟩
    | complete_err =>
      obtain ⟨he, ht⟩ := conn_run_from_failed hrest
      subst he
      subst ht
      exact Or.inr ⟨rfl, rfl⟩

theorem C6_async_connect_witness :
    ([conn_cb.success_cb] = [conn_cb.success_cb] ∧
       conn_state.succeeded = conn_state.succeeded) ∨
    ([conn_cb.success_cb] = [conn_cb.error_cb] ∧
       conn_state.succeeded = conn_state.failed) :=
  C6_async_connect.2 [conn_cb.success_cb] conn_state.succeeded
    (conn_run.step conn_step.complete_ok (conn_run.refl conn_state.succeeded))
    (by decide)

/-- C8: the event-mask constants have exactly the values
`READ = 0x02`, `WRITE = 0x04` and `PERSIST = 0x10`, occupy pairwise
disjoint bits, and each flag is recoverable from a mask combining all
of them. -/
theorem C8_event_masks :
    VDE_EV_READ = 0x02 ∧ VDE_EV_WRITE = 0x04 ∧ VDE_EV_PERSIST = 0x10 ∧
    VDE_EV_READ &&& VDE_EV_WRITE = 0 ∧
    VDE_EV_READ &&& VDE_EV_PERSIST = 0 ∧
    VDE_EV_WRITE &&& VDE_EV_PERSIST = 0 ∧
    (VDE_EV_READ ||| VDE_EV_WRITE ||| VDE_EV_PERSIST) &&& VDE_EV_READ =
      VDE_EV_READ ∧
    (VDE_EV_READ ||| VDE_EV_WRITE ||| VDE_EV_PERSIST) &&& VDE_EV_WRITE =
      VDE_EV_WRITE ∧
    (VDE_EV_READ ||| VDE_EV_WRITE ||| VDE_EV_PERSIST) &&& VDE_EV_PERSIST =
      VDE_EV_PERSIST := by
  decide

/-- C9 counterexample: it is not the case that every context operation
other than `vde_context_fini` and `vde_context_delete` returns an
`int` status: `vde_context_get_component` returns a component pointer. -/
theorem C9_counterexample :
    ¬ (∀ op ∈ contextOperations,
        op.1 ≠ "vde_context_fini" → op.1 ≠ "vde_context_delete" →
        op.2 = c_return_type.int) := by
  decide

/-- C9 (amended): `vde_context_fini` and `vde_context_delete` are
exactly the void-returning context operations, so no failure code is
observable from them, and every other context operation except the
lookup `vde_context_get_component` (which returns a component pointer)
returns an `int` status code. -/
theorem C9_void_returns :
    (∀ op ∈ contextOperations,
       (op.2 = c_return_type.void ↔
         (op.1 = "vde_context_fini" ∨ op.1 = "vde_context_delete"))) ∧
    (∀ op ∈ contextOperations,
       op.1 ≠ "vde_context_fini" → op.1 ≠ "vde_context_delete" →
       op.1 ≠ "vde_context_get_component" → op.2 = c_return_type.int) ∧
    ("vde_context_get_component", c_return_type.component_ptr) ∈
      contextOperations := by
  refine ⟨?_, ?_, ?_⟩ <;> decide

theorem C9_void_returns_witness :
    ("vde_context_config_save", c_return_type.int).2 = c_return_type.int :=
  C9_void_returns.2.1 ("vde_context_config_save", c_return_type.int)
    (by decide) (by decide) (by decide) (by decide)

/-- C10: the async-connect error callback has exactly the same
signature as the success callback — it receives only the connection
manager component and the caller-supplied opaque argument, returns
nothing, and carries no error-code parameter. -/
theorem C10_error_cb_signature :
    vde_connect_error_cb_sig = vde_connect_success_cb_sig ∧
    vde_connect_error_cb_sig.params =
      [c_type.component_ptr_t, c_type.void_ptr_t] ∧
    c_type.int_t ∉ vde_connect_error_cb_sig.params ∧
    vde_connect_error_cb_sig.ret = c_type.void_t := by
  decide
